import Mathlib

/-!
Verification of the NeoDoom glTF asset-decoding and scene-resolution pipeline
(src/common/models/model_gltf.cpp, model_gltf_helpers.cpp, model_gltf_render.cpp).

The embedding models machine integers as Nat or Int, byte buffers as lists of
byte values, and float values by their 32-bit little-endian bit patterns
(equal bit patterns give equal floats).  Out-of-bounds byte reads, which are
undefined behaviour in the C++ source, are modelled as reading the value 0;
the success or failure result of every operation mirrors the control flow of
the source exactly, so boundedness statements are unaffected by that choice.
-/

namespace GLTF

/-- Component types of glTF accessors (the fastgltf component-type values the
code dispatches on). -/
inductive ComponentType where
  | byte
  | unsignedByte
  | short
  | unsignedShort
  | int
  | unsignedInt
  | float
  | double
deriving DecidableEq, Repr, Inhabited

/-- Byte width of one component, as in fastgltf getComponentBitSize / 8. -/
def ComponentType.byteSize : ComponentType → ℕ
  | .byte => 1
  | .unsignedByte => 1
  | .short => 2
  | .unsignedShort => 2
  | .int => 4
  | .unsignedInt => 4
  | .float => 4
  | .double => 8

/-- Element types of glTF accessors (fastgltf AccessorType). -/
inductive AccessorType where
  | scalar
  | vec2
  | vec3
  | vec4
  | mat2
  | mat3
  | mat4
deriving DecidableEq, Repr, Inhabited

/-- Number of components per element, as in fastgltf getNumComponents. -/
def AccessorType.numComponents : AccessorType → ℕ
  | .scalar => 1
  | .vec2 => 2
  | .vec3 => 3
  | .vec4 => 4
  | .mat2 => 4
  | .mat3 => 9
  | .mat4 => 16

/-- fastgltf getElementByteSize: component byte size times component count.
VEC3 of FLOAT gives 12. -/
def elementByteSize (t : AccessorType) (c : ComponentType) : ℕ :=
  t.numComponents * c.byteSize

/-- An accessor of the parsed asset document (the fields ReadAccessor uses). -/
structure Accessor where
  bufferViewIndex : Option ℕ
  byteOffset : ℕ
  componentType : ComponentType
  type : AccessorType
  count : ℕ
deriving DecidableEq, Repr, Inhabited

/-- A buffer view of the parsed asset document (the fields ReadAccessor uses). -/
structure BufferView where
  bufferIndex : ℕ
  byteOffset : ℕ
  byteLength : ℕ
  byteStride : Option ℕ
deriving DecidableEq, Repr, Inhabited

/-- The slice of the parsed asset document that accessor decoding consults. -/
structure Asset where
  accessors : List Accessor
  bufferViews : List BufferView
deriving DecidableEq, Repr, Inhabited

/-- Reading one byte of a resolved buffer.  Reads past the end of the buffer
are undefined behaviour in the source; they are modelled as the value 0. -/
def byteAt (buf : List ℕ) (i : ℕ) : ℕ :=
  buf.getD i 0

/-- FGLTFModel::ReadAccessor.  Fails (returns false, modelled as none) when
the accessor index is out of range of the accessor list or the accessor has
no buffer view.  Otherwise it computes the natural element stride, and either
copies the region contiguously or, when the buffer view declares a byte
stride different from the natural stride, copies element i from byte offset
viewOffset + accessorOffset + i * viewStride to packed output offset
i * naturalStride.  The source performs no bounds check of the computed
region against the owning buffer length. -/
def readAccessor (asset : Asset) (buffers : List (List ℕ)) (accessorIndex : ℤ) :
    Option (List ℕ × ℕ × ℕ) :=
  if accessorIndex < 0 ∨ (asset.accessors.length : ℤ) ≤ accessorIndex then none
  else
    let accessor := asset.accessors.getD accessorIndex.toNat default
    match accessor.bufferViewIndex with
    | none => none
    | some bvi =>
      let bufferView := asset.bufferViews.getD bvi default
      let outCount := accessor.count
      let outStride := elementByteSize accessor.type accessor.componentType
      let totalSize := outCount * outStride
      let buf := buffers.getD bufferView.bufferIndex []
      let srcOff := bufferView.byteOffset + accessor.byteOffset
      let outData :=
        match bufferView.byteStride with
        | some s =>
          if s ≠ outStride then
            ((List.range outCount).map (fun i =>
              (List.range outStride).map (fun k => byteAt buf (srcOff + i * s + k)))).flatten
          else
            (List.range totalSize).map (fun j => byteAt buf (srcOff + j))
        | none =>
          (List.range totalSize).map (fun j => byteAt buf (srcOff + j))
      some (outData, outCount, outStride)

/-- FGLTFModel::IsAccessorValid. -/
def isAccessorValid (asset : Asset) (accessorIndex : ℤ) : Bool :=
  decide (0 ≤ accessorIndex ∧ accessorIndex < (asset.accessors.length : ℤ))

/-- The 32-bit little-endian word formed by four consecutive bytes; stands
for the bit pattern of a 32-bit value (a float or an unsigned int) starting
at byte offset p. -/
def leWord (bytes : List ℕ) (p : ℕ) : ℕ :=
  bytes.getD p 0 + 256 * bytes.getD (p + 1) 0 +
    65536 * bytes.getD (p + 2) 0 + 16777216 * bytes.getD (p + 3) 0

/-- The 16-bit little-endian word at byte offset p. -/
def leHalf (bytes : List ℕ) (p : ℕ) : ℕ :=
  bytes.getD p 0 + 256 * bytes.getD (p + 1) 0

/-- TArray::Resize as it acts on the element list: existing elements up to
the new size are kept, any newly created slots hold a default value. -/
def resizeTo {α : Type} (l : List α) (n : ℕ) (d : α) : List α :=
  l.take n ++ List.replicate (n - l.length) d

/-- One decoded vec3 element of a raw byte array: the three 32-bit float bit
patterns the source reinterprets at float indices 3i, 3i+1, 3i+2. -/
def fvec3OfBytes (raw : List ℕ) (i : ℕ) : ℕ × ℕ × ℕ :=
  (leWord raw (i * 12), leWord raw (i * 12 + 4), leWord raw (i * 12 + 8))

/-- FGLTFModel::ReadAccessorTyped for FVector3, acting on the destination
array state.  On a raw read failure or an invalid index the destination is
untouched; when the element type is VEC3 the destination is resized to the
element count before the component type is checked, so a VEC3 accessor with a
non-float component type leaves the destination resized but unfilled. -/
def readAccessorTypedVec3 (asset : Asset) (buffers : List (List ℕ))
    (accessorIndex : ℤ) (dest : List (ℕ × ℕ × ℕ)) : Bool × List (ℕ × ℕ × ℕ) :=
  match readAccessor asset buffers accessorIndex with
  | none => (false, dest)
  | some (raw, count, _) =>
    if ¬ isAccessorValid asset accessorIndex then (false, dest)
    else
      let accessor := asset.accessors.getD accessorIndex.toNat default
      if accessor.type = .vec3 then
        let resized := resizeTo dest count (0, 0, 0)
        if accessor.componentType = .float then
          (true, (List.range count).map (fun i => fvec3OfBytes raw i))
        else (false, resized)
      else (false, dest)

/-- FGLTFModel::ReadAccessorTyped for uint32_t: the destination is resized to
the element count, then unsigned 8, 16 and 32 bit source components are
widened to 32-bit values; any other component type fails with the destination
left resized. -/
def readAccessorTypedU32 (asset : Asset) (buffers : List (List ℕ))
    (accessorIndex : ℤ) (dest : List ℕ) : Bool × List ℕ :=
  match readAccessor asset buffers accessorIndex with
  | none => (false, dest)
  | some (raw, count, _) =>
    if ¬ isAccessorValid asset accessorIndex then (false, dest)
    else
      let accessor := asset.accessors.getD accessorIndex.toNat default
      let resized := resizeTo dest count 0
      match accessor.componentType with
      | .unsignedInt => (true, (List.range count).map (fun i => leWord raw (4 * i)))
      | .unsignedShort => (true, (List.range count).map (fun i => leHalf raw (2 * i)))
      | .unsignedByte => (true, (List.range count).map (fun i => raw.getD i 0))
      | _ => (false, resized)

/-- The error taxonomy of GLTFError in model_gltf.h. -/
inductive GLTFError where
  | none
  | invalidFormat
  | unsupportedVersion
  | missingRequiredData
  | corruptedBuffer
  | outOfMemory
  | libraryError
  | textureLoadFailure
  | animationError
  | validationFailure
deriving DecidableEq, Repr, Inhabited

/-- IsGLBFile over a byte buffer, for the little-endian host the code targets
(LittleLong is the identity there, and the raw 32-bit load of the magic reads
the four bytes in little-endian order).  Returns the boolean result together
with the error kind recorded in the result object. -/
def isGLBFile (buffer : List ℕ) : Bool × GLTFError :=
  if buffer.length < 12 then (false, .invalidFormat)
  else if leWord buffer 0 ≠ 0x46546C67 then (false, .invalidFormat)
  else if leWord buffer 4 ≠ 2 then (false, .unsupportedVersion)
  else if buffer.length < leWord buffer 8 then (false, .corruptedBuffer)
  else (true, .none)

/-- ValidateGLBHeader: IsGLBFile, then a minimum size of 20 bytes, then the
first chunk must be of type JSON and fit, together with the 20 bytes of
header overhead, inside the declared total length. -/
def validateGLBHeader (buffer : List ℕ) : Bool × GLTFError :=
  match isGLBFile buffer with
  | (false, err) => (false, err)
  | (true, _) =>
    if buffer.length < 20 then (false, .invalidFormat)
    else
      let fileLength := leWord buffer 8
      let chunkLength := leWord buffer 12
      let chunkType := leWord buffer 16
      if chunkType ≠ 0x4E4F534A then (false, .invalidFormat)
      else if fileLength < 12 + 8 + chunkLength then (false, .corruptedBuffer)
      else (true, .none)

/-- The keyframe search loop of FGLTFModel::SampleAnimation: scan adjacent
pairs of the time track for the first index i with times[i] <= t and
t < times[i+1], returning none when no pair brackets t. -/
def findKeyframeAux (t : ℚ) : List ℚ → ℕ → Option ℕ
  | t0 :: t1 :: rest, i =>
    if t0 ≤ t ∧ t < t1 then some i else findKeyframeAux t (t1 :: rest) (i + 1)
  | _, _ => none

/-- The keyframe index SampleAnimation settles on: the first bracketing pair,
or the initial value 0 when no pair brackets the query time. -/
def findKeyframe (times : List ℚ) (t : ℚ) : ℕ :=
  (findKeyframeAux t times 0).getD 0

/-- The interpolation factor SampleAnimation computes for the selected
keyframe: (t - times[kf]) / (times[kf+1] - times[kf]) when the keyframe is
not the last one and the interval has positive length, 0 otherwise.  The
time track is assumed nonempty (an empty track is rejected during animation
conversion, and the loop bound of the source underflows on it). -/
def interpFactor (times : List ℚ) (t : ℚ) : ℚ :=
  let kf := findKeyframe times t
  if kf < times.length - 1 then
    let duration := times.getD (kf + 1) 0 - times.getD kf 0
    if 0 < duration then (t - times.getD kf 0) / duration else 0
  else 0

/-- a * (1 - t) + b * t, the blend SampleAnimation applies per component. -/
def lerpQ (a b t : ℚ) : ℚ :=
  a * (1 - t) + b * t

/-- Componentwise linear blend of two vec3 values. -/
def lerpV3 (a b : ℚ × ℚ × ℚ) (t : ℚ) : ℚ × ℚ × ℚ :=
  (lerpQ a.1 b.1 t, lerpQ a.2.1 b.2.1 t, lerpQ a.2.2 b.2.2 t)

/-- The translation (or scale) channel application of SampleAnimation, on an
already decoded time track and value track: blend the keyframe pair when the
selected keyframe is not the last value, otherwise leave the current bone
transform component unchanged. -/
def sampleVec3Track (times : List ℚ) (values : List (ℚ × ℚ × ℚ)) (t : ℚ)
    (current : ℚ × ℚ × ℚ) : ℚ × ℚ × ℚ :=
  let kf := findKeyframe times t
  let fac := interpFactor times t
  if kf < values.length - 1 then
    lerpV3 (values.getD kf (0, 0, 0)) (values.getD (kf + 1) (0, 0, 0)) fac
  else current

/-- Animation interpolation kinds (fastgltf AnimationInterpolation). -/
inductive InterpKind where
  | linear
  | step
  | cubicSpline
deriving DecidableEq, Repr, Inhabited

/-- ToInterpolationString. -/
def toInterpolationString : InterpKind → String
  | .linear => "LINEAR"
  | .step => "STEP"
  | .cubicSpline => "CUBICSPLINE"

/-- Animation target paths (fastgltf AnimationPath). -/
inductive PathKind where
  | translation
  | rotation
  | scale
  | weights
deriving DecidableEq, Repr, Inhabited

/-- ToAnimationPathString. -/
def toAnimationPathString : PathKind → String
  | .translation => "translation"
  | .rotation => "rotation"
  | .scale => "scale"
  | .weights => "weights"

/-- A parsed animation sampler (fastgltf::Animation samplers entry). -/
structure AnimSamplerSrc where
  inputAccessorIndex : ℤ
  outputAccessorIndex : ℤ
  interpolation : InterpKind
deriving DecidableEq, Repr, Inhabited

/-- A parsed animation channel (fastgltf::Animation channels entry). -/
structure AnimChannelSrc where
  samplerIndex : ℕ
  nodeIndex : ℕ
  path : PathKind
deriving DecidableEq, Repr, Inhabited

/-- A parsed animation (fastgltf::Animation). -/
structure AnimationSrc where
  name : String
  samplers : List AnimSamplerSrc
  channels : List AnimChannelSrc
deriving DecidableEq, Repr, Inhabited

/-- A converted GLTFAnimationChannel. -/
structure ConvChannel where
  samplerIndex : ℕ
  targetNodeIndex : ℤ
  targetPath : String
deriving DecidableEq, Repr, Inhabited

/-- A converted GLTFAnimation (samplers are copied field for field, so the
source sampler list stands for the converted one). -/
structure ConvertedAnim where
  name : String
  samplers : List AnimSamplerSrc
  channels : List ConvChannel
  duration : ℚ
deriving DecidableEq, Repr, Inhabited

/-- Whether the time-track read of one sampler keeps the conversion alive:
the source decodes the input accessor via ReadAccessorTyped and treats a
failed read (which leaves the freshly declared array empty) or an empty
decoded track as a hard animation error.  The decoded track is abstracted as
a function from accessor index to an optional list of rational time values,
standing for the float values ReadAccessorTyped of float produces. -/
def samplerTimesOk (readTimes : ℤ → Option (List ℚ)) (s : AnimSamplerSrc) : Bool :=
  match readTimes s.inputAccessorIndex with
  | some ts => !ts.isEmpty
  | none => false

/-- The sampler loop of FGLTFModel::ConvertGLTFAnimation, folding the running
success flag and the running maximum keyframe time over the sampler list. -/
def convertSamplersFold (readTimes : ℤ → Option (List ℚ)) (acc : Bool × ℚ)
    (s : AnimSamplerSrc) : Bool × ℚ :=
  match readTimes s.inputAccessorIndex with
  | some ts =>
    if ts.isEmpty then (false, acc.2) else (acc.1, max acc.2 (ts.getLast?.getD 0))
  | none => (false, acc.2)

/-- FGLTFModel::ConvertGLTFAnimation: converts every sampler and channel of
one animation; a sampler with an empty or undecodable time track marks the
whole animation failed, while the conversion of the remaining samplers and
of the channels still runs.  A channel whose target node index is not below
the node count becomes inert with target -1. -/
def convertGLTFAnimation (numNodes : ℕ) (readTimes : ℤ → Option (List ℚ))
    (anim : AnimationSrc) : Bool × ConvertedAnim :=
  let folded := anim.samplers.foldl (convertSamplersFold readTimes) (true, 0)
  let channels := anim.channels.map (fun c =>
    { samplerIndex := c.samplerIndex
      targetNodeIndex := if c.nodeIndex < numNodes then (c.nodeIndex : ℤ) else -1
      targetPath := toAnimationPathString c.path })
  (folded.1,
    { name := anim.name
      samplers := anim.samplers
      channels := channels
      duration := folded.2 })

/-- FGLTFModel::ProcessAnimations: every animation is converted (a failed one
is skipped only for the engine-side ModelAnim entry, its converted record is
still produced), and the pass reports success only when every conversion
succeeded. -/
def processAnimations (numNodes : ℕ) (readTimes : ℤ → Option (List ℚ))
    (anims : List AnimationSrc) : Bool × List (Bool × ConvertedAnim) :=
  let converted := anims.map (convertGLTFAnimation numNodes readTimes)
  (converted.all (fun r => r.1), converted)

/-- FGLTFModel::ProcessAsset as a function of the per-pass outcomes: each
pass runs only if all previous passes succeeded, and a false return of any
pass aborts the load. -/
def processAssetOk (buffersOk texturesOk materialsOk meshesOk nodesOk skinsOk
    animationsOk : Bool) : Bool :=
  buffersOk && texturesOk && materialsOk && meshesOk && nodesOk && skinsOk && animationsOk

/-- A parsed mesh primitive (the attribute references LoadMeshPrimitive
consults for success; the optional NORMAL, TEXCOORD_0, TANGENT and COLOR_0
attributes never affect whether the primitive loads, only which vertex
fields are filled). -/
structure PrimitiveSrc where
  positionAccessor : Option ℤ
  indicesAccessor : Option ℤ
deriving DecidableEq, Repr, Inhabited

/-- A parsed mesh: a name and its primitive list. -/
structure MeshSrc where
  name : String
  primitives : List PrimitiveSrc
deriving DecidableEq, Repr, Inhabited

/-- An output mesh entry of the scene (the fields relevant to the mesh list
shape): vertex positions as float bit-pattern triples and the index list. -/
structure GLTFMeshOut where
  name : String
  vertices : List (ℕ × ℕ × ℕ)
  indices : List ℕ
deriving DecidableEq, Repr, Inhabited

/-- FGLTFModel::LoadMeshPrimitive, reduced to the data that decides success
and the vertex and index lists: a missing POSITION attribute or a failed
POSITION decode fails the primitive; with an explicit index accessor the
indices are the widened decode result (left empty when that decode fails),
otherwise the trivial sequence 0 .. vertexCount-1 is synthesized. -/
def loadMeshPrimitive (asset : Asset) (buffers : List (List ℕ)) (name : String)
    (prim : PrimitiveSrc) : Option GLTFMeshOut :=
  match prim.positionAccessor with
  | none => none
  | some pa =>
    match readAccessorTypedVec3 asset buffers pa [] with
    | (false, _) => none
    | (true, positions) =>
      let vertexCount := positions.length
      let indices :=
        match prim.indicesAccessor with
        | some ia =>
          match readAccessorTypedU32 asset buffers ia [] with
          | (true, idxs) => idxs
          | (false, _) => []
        | none => List.range vertexCount
      some { name := name, vertices := positions, indices := indices }

/-- FGLTFModel::ProcessMeshes: the scene mesh list is first resized to the
number of source meshes (leaving that many default-constructed entries) and
then one entry is pushed per successfully loaded primitive. -/
def processMeshes (asset : Asset) (buffers : List (List ℕ))
    (srcMeshes : List MeshSrc) : List GLTFMeshOut :=
  let initial : List GLTFMeshOut := List.replicate srcMeshes.length default
  srcMeshes.foldl (fun acc m =>
    m.primitives.foldl (fun acc2 p =>
      match loadMeshPrimitive asset buffers m.name p with
      | some mesh => acc2 ++ [mesh]
      | none => acc2) acc) initial

/-- The number of primitives of a source mesh list that LoadMeshPrimitive
accepts. -/
def successfulPrimCount (asset : Asset) (buffers : List (List ℕ))
    (srcMeshes : List MeshSrc) : ℕ :=
  (srcMeshes.map (fun m =>
    (m.primitives.filter (fun p =>
      (loadMeshPrimitive asset buffers m.name p).isSome)).length)).sum

/-- 4 x 4 rational matrices standing for VSMatrix values; VSMatrix multMatrix
post-multiplies, so combined = this * other. -/
abbrev M4 : Type :=
  Matrix (Fin 4) (Fin 4) ℚ

instance : Inhabited M4 :=
  ⟨1⟩

/-- A resolved GLTFSkin: the ordered joint node-index list and the decoded
inverse-bind matrices. -/
structure GLTFSkin where
  jointIndices : List ℕ
  inverseBindMatrices : List M4
deriving Inhabited

/-- FGLTFModel::BuildBoneHierarchy on the first skin, given the composed
global matrices of the scene nodes: bone i starts as the global matrix of
its joint node and is post-multiplied by the inverse-bind matrix at i when
one exists. -/
def buildBoneHierarchy (skin : GLTFSkin) (globalMatrices : List M4) : List M4 :=
  (List.range skin.jointIndices.length).map (fun i =>
    let nodeIndex := skin.jointIndices.getD i 0
    let g := globalMatrices.getD nodeIndex 1
    if i < skin.inverseBindMatrices.length then g * skin.inverseBindMatrices.getD i 1
    else g)

/-- A scene node as the transform passes see it: child indices and the local
matrix built from its TRS. -/
structure GNode where
  childIndices : List ℤ
  localMatrix : M4
deriving Inhabited

/-- The recursive computeGlobal lambda of FGLTFModel::ComputeNodeTransforms,
made total with a fuel bound on recursion depth: none models a traversal
that exceeds every finite recursion depth, which on the hardware is a stack
overflow.  The global-matrix table is threaded through the traversal, and
the child loop folds the recursion over the child list from left to
right. -/
def computeGlobalFuel (nodes : List GNode) :
    ℕ → ℤ → M4 → List M4 → Option (List M4)
  | 0, _, _, _ => none
  | fuel + 1, nodeIndex, parentMatrix, globals =>
    if nodeIndex < 0 ∨ (nodes.length : ℤ) ≤ nodeIndex then some globals
    else
      let n := nodeIndex.toNat
      let node := nodes.getD n default
      let combined := parentMatrix * node.localMatrix
      node.childIndices.foldl
        (fun acc c =>
          match acc with
          | Option.none => none
          | Option.some g => computeGlobalFuel nodes fuel c combined g)
        (some (globals.set n combined))

/-- The recursive detectCycle lambda of FGLTFModel::ValidateNodes, with a
fuel bound on recursion depth; it returns the cycle verdict together with
the updated visited and in-path marks, and the child loop (which in the
source returns true as soon as one child reports a cycle) folds over the
child list, short-circuiting once a cycle was found. -/
def detectCycleFuel (nodes : List (List ℤ)) :
    ℕ → ℤ → List Bool → List Bool → Option (Bool × List Bool × List Bool)
  | 0, _, _, _ => none
  | fuel + 1, nodeIndex, visited, inPath =>
    if nodeIndex < 0 ∨ (nodes.length : ℤ) ≤ nodeIndex then some (false, visited, inPath)
    else
      let n := nodeIndex.toNat
      if inPath.getD n false then some (true, visited, inPath)
      else if visited.getD n false then some (false, visited, inPath)
      else
        match (nodes.getD n []).foldl
            (fun acc c =>
              match acc with
              | Option.none => none
              | Option.some (true, v, p) => some (true, v, p)
              | Option.some (false, v, p) => detectCycleFuel nodes fuel c v p)
            (some (false, visited.set n true, inPath.set n true)) with
        | Option.none => none
        | Option.some (found, visited2, inPath2) =>
          if found then some (true, visited2, inPath2)
          else some (false, visited2, inPath2.set n false)

/-- The root loop of FGLTFModel::ValidateNodes: run detectCycle from every
not yet visited node; some true means a cycle was reported as a validation
failure. -/
def validateNodesLoop (nodes : List (List ℤ)) (fuel : ℕ) :
    List ℕ → List Bool → List Bool → Option Bool
  | [], _, _ => some false
  | i :: rest, visited, inPath =>
    if visited.getD i false then validateNodesLoop nodes fuel rest visited inPath
    else
      match detectCycleFuel nodes fuel (i : ℤ) visited inPath with
      | Option.none => none
      | Option.some (true, _, _) => some true
      | Option.some (false, visited2, inPath2) =>
        validateNodesLoop nodes fuel rest visited2 inPath2

/-- The cycle-detection verdict of ValidateNodes on a node child table. -/
def validateNodesCycle (nodes : List (List ℤ)) (fuel : ℕ) : Option Bool :=
  validateNodesLoop nodes fuel (List.range nodes.length)
    (List.replicate nodes.length false) (List.replicate nodes.length false)

/-- The passes the load performs, in the order of FGLTFModel::ProcessAsset
followed by the final validation of LoadWithOptions. -/
inductive LoadPass where
  | processBuffers
  | processTextures
  | processMaterials
  | processMeshes
  | processNodes
  | processSkins
  | processAnimations
  | computeNodeTransforms
  | buildBoneHierarchy
  | validateModel
deriving DecidableEq, Repr, BEq

/-- The pass order of FGLTFModel::ProcessAsset. -/
def processAssetPassOrder : List LoadPass :=
  [.processBuffers, .processTextures, .processMaterials, .processMeshes,
   .processNodes, .processSkins, .processAnimations, .computeNodeTransforms,
   .buildBoneHierarchy]

/-- The full load order of FGLTFModel::LoadWithOptions: ProcessAsset runs to
completion first, the validation pass (whose ValidateNodes performs the
cycle detection) runs after it. -/
def loadPassOrder : List LoadPass :=
  processAssetPassOrder ++ [.validateModel]

/-- A TRS transform with rational components. -/
structure TRSq where
  translation : ℚ × ℚ × ℚ
  rotation : ℚ × ℚ × ℚ × ℚ
  scaling : ℚ × ℚ × ℚ
deriving DecidableEq, Repr, Inhabited

/-- The name and duration record of one loaded animation. -/
structure AnimationInfo where
  name : String
  duration : ℚ
deriving DecidableEq, Repr, Inhabited

/-- The loaded model state the read-only query surface consults. -/
structure ModelState where
  animations : List AnimationInfo
  skins : List GLTFSkin
  basePose : List TRSq
  hasSkinning : Bool
  currentAnimationIndex : ℤ
  lastAnimationTime : ℚ
deriving Inhabited

/-- FGLTFModel::GetAnimationName: the empty string for any out-of-range
index. -/
def getAnimationName (m : ModelState) (index : ℤ) : String :=
  if index < 0 ∨ (m.animations.length : ℤ) ≤ index then ""
  else (m.animations.getD index.toNat default).name

/-- FGLTFModel::GetAnimationDuration: 0 for any out-of-range index. -/
def getAnimationDuration (m : ModelState) (index : ℤ) : ℚ :=
  if index < 0 ∨ (m.animations.length : ℤ) ≤ index then 0
  else (m.animations.getD index.toNat default).duration

/-- FGLTFModel::SetCurrentAnimation: an in-range index is stored and the
animation clock restarted at the current time; any other index resets the
current animation to -1. -/
def setCurrentAnimation (m : ModelState) (index : ℤ) (now : ℚ) : ModelState :=
  if 0 ≤ index ∧ index < (m.animations.length : ℤ) then
    { m with currentAnimationIndex := index, lastAnimationTime := now }
  else
    { m with currentAnimationIndex := -1 }

/-- FGLTFModel::GetBoneTransform, acting on the output parameter state:
returns false and the unchanged output value without skinning, with an empty
skin list, for a bone index outside the joint list of the first skin, or for
a bone index at or past the base-pose length. -/
def getBoneTransform (m : ModelState) (boneIndex : ℤ) (outTransform : TRSq) :
    Bool × TRSq :=
  if ¬ m.hasSkinning ∨ m.skins.length = 0 then (false, outTransform)
  else if boneIndex < 0 ∨ (((m.skins.getD 0 default).jointIndices.length : ℤ) ≤ boneIndex) then
    (false, outTransform)
  else if boneIndex < (m.basePose.length : ℤ) then
    (true, m.basePose.getD boneIndex.toNat default)
  else (false, outTransform)

/-! Concrete example inputs used by the closed theorems below. -/

/-- An asset with one VEC3 float accessor of one element over buffer view 0,
whose owning buffer resolved to zero length (a failed external buffer). -/
def zeroBufAsset : Asset :=
  { accessors := [{ bufferViewIndex := some 0, byteOffset := 0,
                    componentType := .float, type := .vec3, count := 1 }]
    bufferViews := [{ bufferIndex := 0, byteOffset := 0, byteLength := 12,
                      byteStride := none }] }

/-- The resolved buffer list with buffer 0 empty. -/
def zeroBufBuffers : List (List ℕ) :=
  [[]]

/-- An asset whose only accessor has no buffer view. -/
def noViewAsset : Asset :=
  { accessors := [{ bufferViewIndex := none, byteOffset := 0,
                    componentType := .float, type := .vec3, count := 1 }]
    bufferViews := [] }

/-- An asset with one VEC3 accessor of two elements whose component type is
unsigned short, not float. -/
def vec3ShortAsset : Asset :=
  { accessors := [{ bufferViewIndex := some 0, byteOffset := 0,
                    componentType := .unsignedShort, type := .vec3, count := 2 }]
    bufferViews := [{ bufferIndex := 0, byteOffset := 0, byteLength := 12,
                      byteStride := none }] }

/-- An asset with one scalar float accessor of two elements (not an unsigned
index type). -/
def scalarFloatAsset : Asset :=
  { accessors := [{ bufferViewIndex := some 0, byteOffset := 0,
                    componentType := .float, type := .scalar, count := 2 }]
    bufferViews := [{ bufferIndex := 0, byteOffset := 0, byteLength := 12,
                      byteStride := none }] }

/-- A twelve-byte resolved buffer of zeros. -/
def twelveZeroBuffers : List (List ℕ) :=
  [List.replicate 12 0]

/-- An asset with one VEC3 float accessor of three elements over a 36-byte
packed buffer (the minimal triangle of the end-to-end scenario). -/
def triAsset : Asset :=
  { accessors := [{ bufferViewIndex := some 0, byteOffset := 0,
                    componentType := .float, type := .vec3, count := 3 }]
    bufferViews := [{ bufferIndex := 0, byteOffset := 0, byteLength := 36,
                      byteStride := none }] }

/-- The 36-byte zero buffer backing the minimal triangle. -/
def triBuffers : List (List ℕ) :=
  [List.replicate 36 0]

/-- One source mesh with one primitive whose POSITION attribute is accessor
0 and which has no explicit index accessor. -/
def triMeshes : List MeshSrc :=
  [{ name := "tri", primitives := [{ positionAccessor := some 0, indicesAccessor := none }] }]

/-- A well-formed GLB byte buffer (magic, version 2, JSON first chunk of
length 0) whose declared total length 20 is less than its actual length 28. -/
def shortLenGLB : List ℕ :=
  [0x67, 0x6C, 0x54, 0x46, 2, 0, 0, 0, 20, 0, 0, 0,
   0, 0, 0, 0, 0x4A, 0x53, 0x4F, 0x4E] ++ List.replicate 8 0

/-- A minimal well-formed 12-byte GLB header whose declared total length 12
equals the actual length. -/
def exactLenGLBHeader : List ℕ :=
  [0x67, 0x6C, 0x54, 0x46, 2, 0, 0, 0, 12, 0, 0, 0]

/-- A time-track reader with accessor 0 decoding to an empty track and every
other accessor to the two-keyframe track 0, 1. -/
def emptyThenGoodTimes : ℤ → Option (List ℚ) :=
  fun i => if i = 0 then some [] else some [0, 1]

/-- Two parsed animations, the first with a sampler whose time track is
empty, the second fully decodable. -/
def twoAnimsOneBroken : List AnimationSrc :=
  [{ name := "broken", samplers := [{ inputAccessorIndex := 0, outputAccessorIndex := 10,
                                      interpolation := .linear }], channels := [] },
   { name := "good", samplers := [{ inputAccessorIndex := 1, outputAccessorIndex := 11,
                                    interpolation := .linear }], channels := [] }]

/-- The one-node child table in which node 0 lists itself as a child: the
smallest cyclic node graph. -/
def cyclicChildren : List (List ℤ) :=
  [[0]]

/-- The corresponding one-node scene for the transform pass, with an
identity local matrix. -/
def cyclicNodes : List GNode :=
  [{ childIndices := [0], localMatrix := 1 }]

/-- A model state with one animation, no skins and no skinning flag. -/
def oneAnimModel : ModelState :=
  { animations := [{ name := "walk", duration := 2 }]
    skins := []
    basePose := []
    hasSkinning := false
    currentAnimationIndex := 0
    lastAnimationTime := 0 }

/-- An asset with one VEC3 float accessor of two elements over a buffer view
with byte stride 16 (greater than the natural element size 12). -/
def stridedAsset : Asset :=
  { accessors := [{ bufferViewIndex := some 0, byteOffset := 0,
                    componentType := .float, type := .vec3, count := 2 }]
    bufferViews := [{ bufferIndex := 0, byteOffset := 0, byteLength := 32,
                      byteStride := some 16 }] }

/-- A 32-byte buffer holding the marker pattern 0, 1, ..., 31. -/
def stridedBuffers : List (List ℕ) :=
  [List.range 32]

/-! Helper lemmas. -/

/-- Indexing a mapped range list. -/
theorem getD_range_map {α : Type} (f : ℕ → α) (n j : ℕ) (d : α) (h : j < n) :
    ((List.range n).map f).getD j d = f j := by
  rw [List.getD_eq_getElem?_getD, List.getElem?_map, List.getElem?_range h]
  rfl

/-- Indexing the flattening of uniformly sized chunks. -/
theorem getD_flatten_uniform {α : Type} (E : ℕ) :
    ∀ (L : List (List α)) (i : ℕ), (∀ l ∈ L, l.length = E) → i < L.length →
      ∀ (k : ℕ), k < E → ∀ (d : α),
        L.flatten.getD (i * E + k) d = (L.getD i []).getD k d := by
  intro L
  induction L with
  | nil =>
    intro i _ hi
    exact absurd hi (by simp)
  | cons l rest ih =>
    intro i hE hi k hk d
    match i with
    | 0 =>
      have hl : l.length = E := hE l (by simp)
      simp only [List.flatten_cons, Nat.zero_mul, Nat.zero_add, List.getD_cons_zero]
      exact List.getD_append _ _ _ _ (by omega)
    | j + 1 =>
      have hl : l.length = E := hE l (by simp)
      have harith : (j + 1) * E + k = l.length + (j * E + k) := by
        rw [hl]; ring
      simp only [List.flatten_cons, List.getD_cons_succ]
      rw [harith, List.getD_append_right _ _ _ _ (by omega)]
      have : l.length + (j * E + k) - l.length = j * E + k := by omega
      rw [this]
      exact ih j (fun x hx => hE x (by simp [hx])) (by simpa using hi) k hk d

/-- Reading a 32-bit word out of the packed copy of a buffer region reads
the same word of the source buffer, shifted by the region offset. -/
theorem leWord_range_map (buf : List ℕ) (off total p : ℕ) (h : p + 3 < total) :
    leWord ((List.range total).map (fun j => byteAt buf (off + j))) p =
      leWord buf (off + p) := by
  unfold leWord
  rw [getD_range_map _ _ _ _ (by omega), getD_range_map _ _ _ _ (by omega),
      getD_range_map _ _ _ _ (by omega), getD_range_map _ _ _ _ (by omega)]
  unfold byteAt
  have h1 : off + (p + 1) = off + p + 1 := by omega
  have h2 : off + (p + 2) = off + p + 2 := by omega
  have h3 : off + (p + 3) = off + p + 3 := by omega
  rw [h1, h2, h3]

/-- The length of the flattening of uniformly sized chunks. -/
theorem length_flatten_uniform {α : Type} (E : ℕ) :
    ∀ (L : List (List α)), (∀ l ∈ L, l.length = E) →
      L.flatten.length = L.length * E := by
  intro L
  induction L with
  | nil =>
    intro _
    simp
  | cons l rest ih =>
    intro hE
    simp only [List.flatten_cons, List.length_append, List.length_cons]
    rw [hE l (by simp), ih (fun x hx => hE x (by simp [hx]))]
    ring

/-! Theorems for the claims. -/

/-- C1: ReadAccessor is claimed to fail whenever the computed region exceeds
the owning resolved buffer length, and in particular on a zero-length
unresolved buffer.  The code checks only the accessor index and the presence
of a buffer view: on the concrete asset whose accessor needs 12 bytes of a
zero-length buffer the read succeeds and returns 12 bytes read from outside
the buffer, while the out-of-range-index and missing-buffer-view failures do
hold. -/
theorem readAccessor_no_bounds_check :
    readAccessor zeroBufAsset zeroBufBuffers 0 = some (List.replicate 12 0, 1, 12) ∧
    (zeroBufBuffers.getD 0 []).length = 0 ∧
    ((zeroBufAsset.accessors.getD 0 default).count *
      elementByteSize (zeroBufAsset.accessors.getD 0 default).type
        (zeroBufAsset.accessors.getD 0 default).componentType) = 12 ∧
    readAccessor zeroBufAsset zeroBufBuffers 5 = none ∧
    readAccessor zeroBufAsset zeroBufBuffers (-1) = none ∧
    readAccessor noViewAsset zeroBufBuffers 0 = none := by
  decide

/-- C6: on the minimal one-mesh one-primitive asset that loads successfully,
ProcessMeshes produces two mesh entries (one default-constructed placeholder
left by the initial resize plus the pushed primitive entry) although exactly
one primitive loaded. -/
theorem processMeshes_leaves_placeholder_entries :
    (processMeshes triAsset triBuffers triMeshes).length = 2 ∧
    successfulPrimCount triAsset triBuffers triMeshes = 1 ∧
    (processMeshes triAsset triBuffers triMeshes).getD 0 default =
      (default : GLTFMeshOut) ∧
    ((processMeshes triAsset triBuffers triMeshes).getD 1 default).vertices.length = 3 := by
  decide

/-- C7 counterexample: a well-formed GLB buffer (correct magic, version 2,
JSON first chunk) whose declared total length 20 is less than its actual
length 28 passes both IsGLBFile and ValidateGLBHeader, so header validation
does not fail with a corrupted-buffer error on such input. -/
theorem glb_short_declared_length_passes :
    isGLBFile shortLenGLB = (true, GLTFError.none) ∧
    validateGLBHeader shortLenGLB = (true, GLTFError.none) ∧
    leWord shortLenGLB 0 = 0x46546C67 ∧
    leWord shortLenGLB 4 = 2 ∧
    leWord shortLenGLB 8 = 20 ∧
    shortLenGLB.length = 28 := by
  decide

/-- C7 amended: for a buffer of at least 12 bytes with correct magic and
version 2, header validation fails with corrupted-buffer exactly when the
declared total length exceeds the actual buffer length; a declared total
length at most the actual length passes. -/
theorem isGLBFile_length_check (buffer : List ℕ) (h12 : 12 ≤ buffer.length)
    (hmagic : leWord buffer 0 = 0x46546C67) (hver : leWord buffer 4 = 2) :
    (leWord buffer 8 ≤ buffer.length → isGLBFile buffer = (true, GLTFError.none)) ∧
    (buffer.length < leWord buffer 8 →
      isGLBFile buffer = (false, GLTFError.corruptedBuffer)) := by
  unfold isGLBFile
  rw [hmagic, hver]
  constructor
  · intro hle
    rw [if_neg (by omega), if_neg (by simp), if_neg (by simp), if_neg (by omega)]
  · intro hgt
    rw [if_neg (by omega), if_neg (by simp), if_neg (by simp), if_pos (by omega)]

/-- Witness for the amended C7 statement at the minimal exact-length header. -/
theorem isGLBFile_length_check_witness :
    12 ≤ exactLenGLBHeader.length ∧
    leWord exactLenGLBHeader 0 = 0x46546C67 ∧
    leWord exactLenGLBHeader 4 = 2 ∧
    leWord exactLenGLBHeader 8 ≤ exactLenGLBHeader.length ∧
    isGLBFile exactLenGLBHeader = (true, GLTFError.none) :=
  ⟨by decide, by decide, by decide, by decide,
    (isGLBFile_length_check exactLenGLBHeader (by decide) (by decide) (by decide)).1
      (by decide)⟩

/-- C2 counterexample: with the ascending time track 1, 2 and query time 0
(before the first keyframe), SampleAnimation settles on keyframe 0 with the
unclamped factor -1 and blends past the first keyframe, so sampling before
the first keyframe does not yield the first keyframe value with factor 0. -/
theorem sample_before_first_keyframe_extrapolates :
    findKeyframe [1, 2] 0 = 0 ∧
    interpFactor [1, 2] 0 = -1 ∧
    sampleVec3Track [1, 2] [(0, 0, 0), (1, 1, 1)] 0 (0, 0, 0) = (-1, -1, -1) ∧
    sampleVec3Track [1, 2] [(0, 0, 0), (1, 1, 1)] 0 (0, 0, 0) ≠ (0, 0, 0) := by
  have hkf : findKeyframe [1, 2] 0 = 0 := by
    norm_num [findKeyframe, findKeyframeAux]
  have hfac : interpFactor [1, 2] 0 = -1 := by
    norm_num [interpFactor, hkf, List.getD_cons_zero, List.getD_cons_succ]
  have hsample : sampleVec3Track [1, 2] [(0, 0, 0), (1, 1, 1)] 0 (0, 0, 0) = (-1, -1, -1) := by
    norm_num [sampleVec3Track, hkf, hfac, lerpV3, lerpQ,
      List.getD_cons_zero, List.getD_cons_succ]
  refine ⟨hkf, hfac, hsample, ?_⟩
  rw [hsample]
  norm_num [Prod.ext_iff]

/-- C4 counterexample: a typed vec3 read against a VEC3 accessor with
unsigned-short components fails but resizes the destination from 0 to 2
entries, and a typed unsigned-index read against a float accessor fails but
also resizes the destination, so a failed typed read does not always leave
the destination array unchanged. -/
theorem typed_read_mismatch_resizes_destination :
    readAccessorTypedVec3 vec3ShortAsset twelveZeroBuffers 0 [] =
      (false, [(0, 0, 0), (0, 0, 0)]) ∧
    (readAccessorTypedVec3 vec3ShortAsset twelveZeroBuffers 0 []).2.length = 2 ∧
    readAccessorTypedU32 scalarFloatAsset twelveZeroBuffers 0 [] = (false, [0, 0]) ∧
    (readAccessorTypedU32 scalarFloatAsset twelveZeroBuffers 0 []).2.length = 2 := by
  decide

/-- C5 counterexample: with two animations of which the first has a sampler
with an empty time track, the first animation as a whole is marked failed
and the second still converts successfully, but ProcessAnimations reports
failure and ProcessAsset therefore aborts the load, so the overall model
load does fail because of that one animation. -/
theorem one_bad_animation_fails_load :
    (processAnimations 2 emptyThenGoodTimes twoAnimsOneBroken).1 = false ∧
    ((processAnimations 2 emptyThenGoodTimes twoAnimsOneBroken).2.getD 0 default).1 = false ∧
    ((processAnimations 2 emptyThenGoodTimes twoAnimsOneBroken).2.getD 1 default).1 = true ∧
    processAssetOk true true true true true true
      (processAnimations 2 emptyThenGoodTimes twoAnimsOneBroken).1 = false := by
  decide

/-- C3: in the load order, the global-transform composition pass of
ProcessAsset runs strictly before the validation pass that performs cycle
detection; on the one-node cyclic graph the composition traversal exceeds
every finite recursion depth, while the cycle detector of ValidateNodes,
had it run first, reports the cycle. -/
theorem transforms_run_before_cycle_validation :
    loadPassOrder.indexOf LoadPass.computeNodeTransforms <
      loadPassOrder.indexOf LoadPass.validateModel ∧
    (∀ (fuel : ℕ) (parentMatrix : M4) (globals : List M4),
      computeGlobalFuel cyclicNodes fuel 0 parentMatrix globals = none) ∧
    validateNodesCycle cyclicChildren 2 = some true := by
  refine ⟨by decide, ?_, by decide⟩
  intro fuel
  induction fuel with
  | zero =>
    intro parentMatrix globals
    rfl
  | succ n ih =>
    intro parentMatrix globals
    have ih2 : ∀ (pm : M4) (g : List M4),
        computeGlobalFuel [{ childIndices := [0], localMatrix := 1 }] n 0 pm g = none := by
      simpa [cyclicNodes] using ih
    simp [computeGlobalFuel, cyclicNodes, ih2]

/-- C9: the bone matrix BuildBoneHierarchy computes for joint j is the joint
node global matrix post-multiplied by the inverse-bind matrix at j when one
exists, and the global matrix unmodified otherwise; in particular an
identity inverse-bind entry leaves the bone matrix equal to the global
matrix exactly. -/
theorem buildBoneHierarchy_global_times_inverse_bind
    (skin : GLTFSkin) (globals : List M4) (j : ℕ)
    (hj : j < skin.jointIndices.length) :
    (buildBoneHierarchy skin globals).getD j 1 =
      (if j < skin.inverseBindMatrices.length then
        globals.getD (skin.jointIndices.getD j 0) 1 * skin.inverseBindMatrices.getD j 1
      else globals.getD (skin.jointIndices.getD j 0) 1) ∧
    (skin.inverseBindMatrices.getD j 1 = 1 →
      (buildBoneHierarchy skin globals).getD j 1 =
        globals.getD (skin.jointIndices.getD j 0) 1) := by
  have hmain : (buildBoneHierarchy skin globals).getD j 1 =
      (if j < skin.inverseBindMatrices.length then
        globals.getD (skin.jointIndices.getD j 0) 1 * skin.inverseBindMatrices.getD j 1
      else globals.getD (skin.jointIndices.getD j 0) 1) := by
    unfold buildBoneHierarchy
    rw [getD_range_map _ _ _ _ hj]
  refine ⟨hmain, fun hib => ?_⟩
  rw [hmain]
  split
  · rw [hib, mul_one]
  · rfl

/-- Witness for C9 at a one-joint skin with an identity inverse-bind
matrix. -/
theorem buildBoneHierarchy_global_times_inverse_bind_witness :
    0 < (GLTFSkin.mk [0] [1]).jointIndices.length ∧
    (buildBoneHierarchy (GLTFSkin.mk [0] [1]) [1]).getD 0 1 =
      (if 0 < (GLTFSkin.mk [0] [1]).inverseBindMatrices.length then
        ([1] : List M4).getD ((GLTFSkin.mk [0] [1]).jointIndices.getD 0 0) 1 *
          (GLTFSkin.mk [0] [1]).inverseBindMatrices.getD 0 1
      else ([1] : List M4).getD ((GLTFSkin.mk [0] [1]).jointIndices.getD 0 0) 1) ∧
    ((GLTFSkin.mk [0] [1]).inverseBindMatrices.getD 0 1 = 1 →
      (buildBoneHierarchy (GLTFSkin.mk [0] [1]) [1]).getD 0 1 =
        ([1] : List M4).getD ((GLTFSkin.mk [0] [1]).jointIndices.getD 0 0) 1) :=
  ⟨by decide,
    (buildBoneHierarchy_global_times_inverse_bind (GLTFSkin.mk [0] [1]) [1] 0 (by decide)).1,
    (buildBoneHierarchy_global_times_inverse_bind (GLTFSkin.mk [0] [1]) [1] 0 (by decide)).2⟩

/-- C10: the read-only query surface is total over arbitrary integer
indices: an out-of-range animation index gives the empty name and duration
0, SetCurrentAnimation on it resets the current animation to -1, and
GetBoneTransform without skinning or with an out-of-range bone index returns
false leaving the output parameter unchanged. -/
theorem query_surface_total_on_out_of_range
    (m : ModelState) (index boneIndex : ℤ) (outTransform : TRSq) (now : ℚ)
    (hidx : index < 0 ∨ (m.animations.length : ℤ) ≤ index) :
    getAnimationName m index = "" ∧
    getAnimationDuration m index = 0 ∧
    (setCurrentAnimation m index now).currentAnimationIndex = -1 ∧
    ((m.hasSkinning = false ∨ boneIndex < 0 ∨
        (((m.skins.getD 0 default).jointIndices.length : ℤ) ≤ boneIndex)) →
      getBoneTransform m boneIndex outTransform = (false, outTransform)) := by
  refine ⟨?_, ?_, ?_, ?_⟩
  · unfold getAnimationName
    rw [if_pos hidx]
  · unfold getAnimationDuration
    rw [if_pos hidx]
  · unfold setCurrentAnimation
    rw [if_neg (by omega)]
  · intro hbone
    unfold getBoneTransform
    split_ifs with h1 h2 h3
    · rfl
    · rfl
    · exfalso
      push_neg at h1 h2
      rcases hbone with hskin | hneg | hout
      · rw [hskin] at h1
        simp at h1
      · omega
      · omega
    · rfl

/-- C8: for an in-range VEC3/FLOAT accessor, (a) over a tightly packed
buffer view (no declared byte stride) the typed decode succeeds and returns
exactly count elements whose three float bit patterns are read from the
source buffer at the packed element offsets, and (b) over a buffer view with
byte stride S greater than the natural element size 12 the raw decode reads
the byte at output position i * 12 + k from source offset
regionStart + i * S + k, packing the elements densely. -/
theorem readAccessor_packed_roundtrip_and_deinterleave
    (asset : Asset) (buffers : List (List ℕ)) (idx vi S : ℕ)
    (acc : Accessor) (view : BufferView) (buf : List ℕ) (off : ℕ)
    (hacc : asset.accessors.getD idx default = acc)
    (hidx : idx < asset.accessors.length)
    (hbv : acc.bufferViewIndex = some vi)
    (htype : acc.type = AccessorType.vec3)
    (hcomp : acc.componentType = ComponentType.float)
    (hview : asset.bufferViews.getD vi default = view)
    (hbuf : buffers.getD view.bufferIndex [] = buf)
    (hoff : view.byteOffset + acc.byteOffset = off) :
    (view.byteStride = none →
      ∀ dest, readAccessorTypedVec3 asset buffers (idx : ℤ) dest =
        (true, (List.range acc.count).map (fun i =>
          (leWord buf (off + i * 12), leWord buf (off + i * 12 + 4),
           leWord buf (off + i * 12 + 8))))) ∧
    (view.byteStride = some S → 12 < S →
      ∃ raw, readAccessor asset buffers (idx : ℤ) = some (raw, acc.count, 12) ∧
        raw.length = acc.count * 12 ∧
        ∀ i k, i < acc.count → k < 12 →
          raw.getD (i * 12 + k) 0 = byteAt buf (off + i * S + k)) := by
  have hguard : ¬((idx : ℤ) < 0 ∨ (asset.accessors.length : ℤ) ≤ (idx : ℤ)) := by
    push_neg
    constructor <;> omega
  have hstride12 : elementByteSize acc.type acc.componentType = 12 := by
    rw [htype, hcomp]
    rfl
  have hvalid : isAccessorValid asset (idx : ℤ) = true := by
    unfold isAccessorValid
    rw [decide_eq_true_eq]
    constructor <;> omega
  constructor
  · intro hsn dest
    have hread : readAccessor asset buffers (idx : ℤ) =
        some ((List.range (acc.count * 12)).map (fun j => byteAt buf (off + j)),
          acc.count, 12) := by
      unfold readAccessor
      rw [if_neg hguard]
      simp only [Int.toNat_natCast, hacc, hbv, hview, hbuf, hstride12, hsn, hoff]
    have hlist : ∀ i ∈ List.range acc.count,
        fvec3OfBytes ((List.range (acc.count * 12)).map (fun j => byteAt buf (off + j))) i =
          (leWord buf (off + i * 12), leWord buf (off + i * 12 + 4),
           leWord buf (off + i * 12 + 8)) := by
      intro i hi
      rw [List.mem_range] at hi
      unfold fvec3OfBytes
      rw [leWord_range_map buf off _ _ (by omega), leWord_range_map buf off _ _ (by omega),
          leWord_range_map buf off _ _ (by omega)]
      have e1 : off + (i * 12 + 4) = off + i * 12 + 4 := by omega
      have e2 : off + (i * 12 + 8) = off + i * 12 + 8 := by omega
      rw [e1, e2]
    unfold readAccessorTypedVec3
    rw [hread]
    simp only [hvalid, Bool.not_true, Bool.false_eq_true, if_false, Int.toNat_natCast,
      hacc, htype, hcomp, if_pos, ite_true, reduceIte]
    exact congrArg (fun l => (true, l)) (List.map_congr_left hlist)
  · intro hss hgt
    have hneq : S ≠ 12 := by omega
    refine ⟨((List.range acc.count).map (fun i =>
        (List.range 12).map (fun k => byteAt buf (off + i * S + k)))).flatten, ?_, ?_, ?_⟩
    · unfold readAccessor
      rw [if_neg hguard]
      simp only [Int.toNat_natCast, hacc, hbv, hview, hbuf, hstride12, hss, hoff]
      rw [if_pos hneq]
    · rw [length_flatten_uniform 12 _ ?_]
      · simp
      · intro l hl
        rw [List.mem_map] at hl
        obtain ⟨j, _, rfl⟩ := hl
        simp
    · intro i k hi hk
      rw [getD_flatten_uniform 12 _ i ?_ (by simpa using hi) k hk]
      · rw [getD_range_map _ _ _ _ hi, getD_range_map _ _ _ _ hk]
      · intro l hl
        rw [List.mem_map] at hl
        obtain ⟨j, _, rfl⟩ := hl
        simp

/-- Witness for C8 at the strided marker asset: an explicit application of
the theorem at a VEC3/FLOAT accessor of two elements over a view with byte
stride 16, with its hypotheses discharged by evaluation. -/
theorem readAccessor_packed_roundtrip_and_deinterleave_witness :
    0 < stridedAsset.accessors.length ∧
    (stridedAsset.bufferViews.getD 0 default).byteStride = some 16 ∧
    (12 : ℕ) < 16 ∧
    (∃ raw, readAccessor stridedAsset stridedBuffers ((0 : ℕ) : ℤ) =
        some (raw, ({ bufferViewIndex := some 0, byteOffset := 0,
                      componentType := .float, type := .vec3, count := 2 } : Accessor).count, 12) ∧
      raw.length = ({ bufferViewIndex := some 0, byteOffset := 0,
                      componentType := .float, type := .vec3, count := 2 } : Accessor).count * 12 ∧
      ∀ i k, i < ({ bufferViewIndex := some 0, byteOffset := 0,
                    componentType := .float, type := .vec3, count := 2 } : Accessor).count →
        k < 12 →
        raw.getD (i * 12 + k) 0 = byteAt (List.range 32) (0 + i * 16 + k)) :=
  ⟨by decide, by decide, by decide,
    (readAccessor_packed_roundtrip_and_deinterleave stridedAsset stridedBuffers 0 0 16
      { bufferViewIndex := some 0, byteOffset := 0,
        componentType := .float, type := .vec3, count := 2 }
      { bufferIndex := 0, byteOffset := 0, byteLength := 32, byteStride := some 16 }
      (List.range 32) 0 rfl (by decide) rfl rfl rfl rfl rfl rfl).2 rfl (by decide)⟩

/-- A successful raw read implies the accessor index was in range. -/
theorem isAccessorValid_of_readAccessor (asset : Asset) (buffers : List (List ℕ))
    (i : ℤ) (r : List ℕ × ℕ × ℕ) (h : readAccessor asset buffers i = some r) :
    isAccessorValid asset i = true := by
  unfold readAccessor at h
  by_cases hc : i < 0 ∨ (asset.accessors.length : ℤ) ≤ i
  · rw [if_pos hc] at h
    exact absurd h (by simp)
  · unfold isAccessorValid
    rw [decide_eq_true_eq]
    push_neg at hc
    exact ⟨hc.1, hc.2⟩

/-- Indexing a mapped list below its length. -/
theorem getD_map_of_lt {α β : Type} (f : α → β) (l : List α) (j : ℕ)
    (hj : j < l.length) (d : β) (d2 : α) :
    (l.map f).getD j d = f (l.getD j d2) := by
  rw [List.getD_eq_getElem?_getD, List.getElem?_map, List.getD_eq_getElem?_getD,
      List.getElem?_eq_getElem hj]
  rfl

/-- C4 amended: when the raw read succeeds but the declared element or
component type does not match the request, the typed read returns false and
never writes decoded values, but the destination array state depends on
where the mismatch is caught: an element-type mismatch of the vec3 read
leaves the destination untouched, a component-type mismatch of the vec3
read leaves it resized to the element count, and a component-type mismatch
of the unsigned-index read also leaves it resized. -/
theorem typed_read_mismatch_fails
    (asset : Asset) (buffers : List (List ℕ)) (idx : ℕ)
    (acc : Accessor) (raw : List ℕ) (count stride : ℕ)
    (hacc : asset.accessors.getD idx default = acc)
    (hread : readAccessor asset buffers (idx : ℤ) = some (raw, count, stride))
    (dest3 : List (ℕ × ℕ × ℕ)) (destU : List ℕ) :
    (acc.type ≠ AccessorType.vec3 →
      readAccessorTypedVec3 asset buffers (idx : ℤ) dest3 = (false, dest3)) ∧
    (acc.type = AccessorType.vec3 → acc.componentType ≠ ComponentType.float →
      readAccessorTypedVec3 asset buffers (idx : ℤ) dest3 =
        (false, resizeTo dest3 count (0, 0, 0))) ∧
    (acc.componentType ≠ ComponentType.unsignedInt →
      acc.componentType ≠ ComponentType.unsignedShort →
      acc.componentType ≠ ComponentType.unsignedByte →
      readAccessorTypedU32 asset buffers (idx : ℤ) destU =
        (false, resizeTo destU count 0)) := by
  have hvalid := isAccessorValid_of_readAccessor asset buffers _ _ hread
  have hacc2 : asset.accessors[idx]?.getD default = acc := by
    rw [← List.getD_eq_getElem?_getD]
    exact hacc
  refine ⟨?_, ?_, ?_⟩
  · intro htype
    simp only [readAccessorTypedVec3, hread, hvalid, Int.toNat_natCast, hacc,
      eq_self_iff_true, not_true, if_false]
    rw [if_neg htype]
  · intro htype hcomp
    simp only [readAccessorTypedVec3, hread, hvalid, Int.toNat_natCast, hacc,
      eq_self_iff_true, not_true, if_false]
    rw [if_pos htype, if_neg hcomp]
  · intro h1 h2 h3
    cases hc : acc.componentType with
    | unsignedInt => exact absurd hc h1
    | unsignedShort => exact absurd hc h2
    | unsignedByte => exact absurd hc h3
    | byte => simp [readAccessorTypedU32, hread, hvalid, Int.toNat_natCast, hacc2, hc]
    | short => simp [readAccessorTypedU32, hread, hvalid, Int.toNat_natCast, hacc2, hc]
    | int => simp [readAccessorTypedU32, hread, hvalid, Int.toNat_natCast, hacc2, hc]
    | float => simp [readAccessorTypedU32, hread, hvalid, Int.toNat_natCast, hacc2, hc]
    | double => simp [readAccessorTypedU32, hread, hvalid, Int.toNat_natCast, hacc2, hc]

/-- Witness for the amended C4 statement at the VEC3/unsigned-short asset
with a two-element accessor and an empty destination. -/
theorem typed_read_mismatch_fails_witness :
    vec3ShortAsset.accessors.getD 0 default =
      ({ bufferViewIndex := some 0, byteOffset := 0,
         componentType := .unsignedShort, type := .vec3, count := 2 } : Accessor) ∧
    (∃ raw, readAccessor vec3ShortAsset twelveZeroBuffers ((0 : ℕ) : ℤ) =
      some (raw, 2, 6)) ∧
    readAccessorTypedVec3 vec3ShortAsset twelveZeroBuffers ((0 : ℕ) : ℤ) [] =
      (false, resizeTo [] 2 (0, 0, 0)) :=
  ⟨rfl, ⟨List.replicate 12 0, by decide⟩,
    (typed_read_mismatch_fails vec3ShortAsset twelveZeroBuffers 0
      { bufferViewIndex := some 0, byteOffset := 0,
        componentType := .unsignedShort, type := .vec3, count := 2 }
      (List.replicate 12 0) 2 6 rfl (by decide) [] []).2.1 rfl (by decide)⟩

/-- One step of the sampler fold: the success flag is conjoined with the
time-track check of the sampler. -/
theorem convertSamplersFold_eq (readTimes : ℤ → Option (List ℚ))
    (acc : Bool × ℚ) (s : AnimSamplerSrc) :
    convertSamplersFold readTimes acc s =
      (acc.1 && samplerTimesOk readTimes s,
        match readTimes s.inputAccessorIndex with
        | some ts => if ts.isEmpty then acc.2 else max acc.2 (ts.getLast?.getD 0)
        | none => acc.2) := by
  unfold convertSamplersFold samplerTimesOk
  cases readTimes s.inputAccessorIndex with
  | none => simp
  | some ts => cases hts : ts.isEmpty <;> simp [hts]

/-- The success component of the sampler fold of ConvertGLTFAnimation is
the conjunction of the incoming flag with every sampler passing the
time-track check. -/
theorem convertSamplersFold_fst (readTimes : ℤ → Option (List ℚ)) :
    ∀ (l : List AnimSamplerSrc) (b : Bool) (m : ℚ),
      (l.foldl (convertSamplersFold readTimes) (b, m)).1 =
        (b && l.all (samplerTimesOk readTimes)) := by
  intro l
  induction l with
  | nil =>
    intro b m
    simp
  | cons s rest ih =>
    intro b m
    rw [List.foldl_cons, convertSamplersFold_eq, ih, List.all_cons, Bool.and_assoc]

/-- C5 amended: an animation with a sampler whose time track is empty or
fails to decode is marked failed as a whole; every animation of the asset
is still converted, but ProcessAnimations reports failure and ProcessAsset
therefore aborts, so the overall load fails because of that one
animation. -/
theorem failed_time_track_fails_whole_load
    (numNodes : ℕ) (readTimes : ℤ → Option (List ℚ))
    (anims : List AnimationSrc) (a : AnimationSrc) (s : AnimSamplerSrc)
    (ha : a ∈ anims) (hs : s ∈ a.samplers)
    (hbad : samplerTimesOk readTimes s = false) :
    (convertGLTFAnimation numNodes readTimes a).1 = false ∧
    (processAnimations numNodes readTimes anims).1 = false ∧
    (processAnimations numNodes readTimes anims).2.length = anims.length ∧
    (∀ j, j < anims.length →
      (processAnimations numNodes readTimes anims).2.getD j (true, default) =
        convertGLTFAnimation numNodes readTimes (anims.getD j default)) ∧
    processAssetOk true true true true true true
      (processAnimations numNodes readTimes anims).1 = false := by
  have hconv : (convertGLTFAnimation numNodes readTimes a).1 = false := by
    unfold convertGLTFAnimation
    simp only
    rw [convertSamplersFold_fst]
    simp only [Bool.true_and]
    by_contra hall
    rw [Bool.not_eq_false, List.all_eq_true] at hall
    exact absurd (hall s hs) (by rw [hbad]; simp)
  have hproc : (processAnimations numNodes readTimes anims).1 = false := by
    unfold processAnimations
    simp only
    by_contra hall
    rw [Bool.not_eq_false, List.all_eq_true] at hall
    exact absurd (hall (convertGLTFAnimation numNodes readTimes a)
      (List.mem_map_of_mem _ ha)) (by rw [hconv]; simp)
  refine ⟨hconv, hproc, by simp [processAnimations], ?_, by simp [processAssetOk, hproc]⟩
  intro j hj
  unfold processAnimations
  simp only
  exact getD_map_of_lt _ _ j hj _ default

/-- Witness for the amended C5 statement at the two-animation asset whose
first animation has an empty time track. -/
theorem failed_time_track_fails_whole_load_witness :
    ({ name := "broken",
       samplers := [{ inputAccessorIndex := 0, outputAccessorIndex := 10,
                      interpolation := .linear }],
       channels := [] } : AnimationSrc) ∈ twoAnimsOneBroken ∧
    ({ inputAccessorIndex := 0, outputAccessorIndex := 10,
       interpolation := .linear } : AnimSamplerSrc) ∈
      ({ name := "broken",
         samplers := [{ inputAccessorIndex := 0, outputAccessorIndex := 10,
                        interpolation := .linear }],
         channels := [] } : AnimationSrc).samplers ∧
    samplerTimesOk emptyThenGoodTimes
      { inputAccessorIndex := 0, outputAccessorIndex := 10,
        interpolation := .linear } = false ∧
    ((convertGLTFAnimation 2 emptyThenGoodTimes
        { name := "broken",
          samplers := [{ inputAccessorIndex := 0, outputAccessorIndex := 10,
                         interpolation := .linear }],
          channels := [] }).1 = false ∧
      (processAnimations 2 emptyThenGoodTimes twoAnimsOneBroken).1 = false ∧
      (processAnimations 2 emptyThenGoodTimes twoAnimsOneBroken).2.length =
        twoAnimsOneBroken.length ∧
      (∀ j, j < twoAnimsOneBroken.length →
        (processAnimations 2 emptyThenGoodTimes twoAnimsOneBroken).2.getD j (true, default) =
          convertGLTFAnimation 2 emptyThenGoodTimes (twoAnimsOneBroken.getD j default)) ∧
      processAssetOk true true true true true true
        (processAnimations 2 emptyThenGoodTimes twoAnimsOneBroken).1 = false) :=
  ⟨by decide, by decide, by decide,
    failed_time_track_fails_whole_load 2 emptyThenGoodTimes twoAnimsOneBroken
      { name := "broken",
        samplers := [{ inputAccessorIndex := 0, outputAccessorIndex := 10,
                       interpolation := .linear }],
        channels := [] }
      { inputAccessorIndex := 0, outputAccessorIndex := 10, interpolation := .linear }
      (by decide) (by decide) (by decide)⟩

/-- Monotonicity of positional access in a sorted time track. -/
theorem sorted_getD_mono (l : List ℚ) (hs : List.Sorted (· ≤ ·) l) (i j : ℕ)
    (hij : i ≤ j) (hj : j < l.length) : l.getD i 0 ≤ l.getD j 0 := by
  have hi : i < l.length := by omega
  rw [List.getD_eq_getElem?_getD, List.getElem?_eq_getElem hi,
      List.getD_eq_getElem?_getD, List.getElem?_eq_getElem hj]
  simp only [Option.getD_some]
  rcases Nat.lt_or_ge i j with hlt | hge
  · exact hs.rel_get_of_lt (show (⟨i, hi⟩ : Fin l.length) < ⟨j, hj⟩ from hlt)
  · have heq : i = j := by omega
    subst heq
    exact le_refl _

/-- Every element of a sorted time track is at most its last element. -/
theorem sorted_le_getD_last (l : List ℚ) (hs : List.Sorted (· ≤ ·) l) (x : ℚ)
    (hx : x ∈ l) : x ≤ l.getD (l.length - 1) 0 := by
  obtain ⟨i, rfl⟩ := List.mem_iff_get.mp hx
  have h := sorted_getD_mono l hs i (l.length - 1)
    (by have := i.isLt; omega) (by have := i.isLt; omega)
  rw [List.getD_eq_getElem?_getD, List.getElem?_eq_getElem i.isLt, Option.getD_some] at h
  simpa [List.get_eq_getElem] using h

/-- When the query time lies strictly below every keyframe time, no adjacent
pair brackets it and the search loop falls through. -/
theorem findKeyframeAux_none_of_lt (t : ℚ) :
    ∀ (l : List ℚ), (∀ x ∈ l, t < x) → ∀ i, findKeyframeAux t l i = none := by
  intro l
  induction l with
  | nil =>
    intro _ i
    rfl
  | cons x xs ih =>
    intro hall i
    cases xs with
    | nil => rfl
    | cons y ys =>
      rw [findKeyframeAux, if_neg ?_]
      · exact ih (fun z hz => hall z (List.mem_cons_of_mem x hz)) (i + 1)
      · intro hco
        exact absurd (hall x (by simp)) (not_lt.mpr hco.1)

/-- When the query time is at or above every keyframe time past the first,
no adjacent pair brackets it and the search loop falls through. -/
theorem findKeyframeAux_none_of_ge (t : ℚ) :
    ∀ (l : List ℚ), (∀ x ∈ l.tail, x ≤ t) → ∀ i, findKeyframeAux t l i = none := by
  intro l
  induction l with
  | nil =>
    intro _ i
    rfl
  | cons x xs ih =>
    intro hall i
    cases xs with
    | nil => rfl
    | cons y ys =>
      rw [findKeyframeAux, if_neg ?_]
      · refine ih (fun z hz => hall z ?_) (i + 1)
        exact List.mem_cons_of_mem y hz
      · intro hco
        exact absurd hco.2 (not_lt.mpr (hall y (by simp)))

/-- The search loop returns the first bracketing pair: on a sorted track a
bracketing index is found exactly where it lies. -/
theorem findKeyframeAux_some (t : ℚ) :
    ∀ (l : List ℚ), List.Sorted (· ≤ ·) l →
      ∀ (j : ℕ), j + 1 < l.length → l.getD j 0 ≤ t → t < l.getD (j + 1) 0 →
      ∀ (base : ℕ), findKeyframeAux t l base = some (base + j) := by
  intro l
  induction l with
  | nil =>
    intro _ j hj
    simp at hj
  | cons x xs ih =>
    intro hs j hj h1 h2 base
    cases xs with
    | nil =>
      simp at hj
    | cons y ys =>
      cases j with
      | zero =>
        have hx : x ≤ t := by simpa using h1
        have hy : t < y := by simpa using h2
        rw [findKeyframeAux, if_pos ⟨hx, hy⟩, Nat.add_zero]
      | succ j' =>
        have hyj : y ≤ (x :: y :: ys).getD (j' + 1) 0 := by
          have hmono := sorted_getD_mono (x :: y :: ys) hs 1 (j' + 1)
            (by omega) (by simp only [List.length_cons] at hj ⊢; omega)
          simpa using hmono
        have hyt : y ≤ t := le_trans hyj h1
        rw [findKeyframeAux, if_neg (fun hco => absurd hco.2 (not_lt.mpr hyt))]
        have hrec := ih (List.Sorted.of_cons hs) j'
          (by simp only [List.length_cons] at hj ⊢; omega)
          (by simpa using h1) (by simpa using h2) (base + 1)
        rw [hrec]
        congr 1
        omega

/-- C2 amended: SampleAnimation selects the first bracketing keyframe pair
with the unclamped interpolation factor; when the query time lies outside
the track (before the first or at or past the last keyframe time) the
keyframe index falls back to its initial value 0 and the factor is still
computed, unclamped, from the first interval, so the sample extrapolates
along the first interval instead of clamping; the channel application then
blends the selected pair with that factor whenever the selected keyframe is
not the last value. -/
theorem sampleAnimation_keyframe_selection
    (times : List ℚ) (t : ℚ) (hsort : List.Sorted (· ≤ ·) times)
    (hlen : 2 ≤ times.length) :
    (∀ i, i + 1 < times.length → times.getD i 0 ≤ t → t < times.getD (i + 1) 0 →
      findKeyframe times t = i ∧
      interpFactor times t =
        (t - times.getD i 0) / (times.getD (i + 1) 0 - times.getD i 0)) ∧
    ((t < times.getD 0 0 ∨ times.getD (times.length - 1) 0 ≤ t) →
      findKeyframe times t = 0 ∧
      interpFactor times t =
        (if 0 < times.getD 1 0 - times.getD 0 0 then
          (t - times.getD 0 0) / (times.getD 1 0 - times.getD 0 0)
        else 0)) ∧
    (∀ (values : List (ℚ × ℚ × ℚ)) (current : ℚ × ℚ × ℚ),
      findKeyframe times t < values.length - 1 →
      sampleVec3Track times values t current =
        lerpV3 (values.getD (findKeyframe times t) (0, 0, 0))
          (values.getD (findKeyframe times t + 1) (0, 0, 0))
          (interpFactor times t)) := by
  refine ⟨?_, ?_, ?_⟩
  · intro i hi h1 h2
    have hkf : findKeyframe times t = i := by
      unfold findKeyframe
      rw [findKeyframeAux_some t times hsort i hi h1 h2 0]
      simp
    refine ⟨hkf, ?_⟩
    unfold interpFactor
    rw [hkf, if_pos (by omega), if_pos (by linarith)]
  · intro hout
    have hnone : findKeyframeAux t times 0 = none := by
      rcases hout with hlt | hge
      · cases times with
        | nil => simp at hlen
        | cons a rest =>
          refine findKeyframeAux_none_of_lt t _ ?_ 0
          intro x hx
          have hlt2 : t < a := by simpa using hlt
          rcases List.mem_cons.mp hx with rfl | hxr
          · exact hlt2
          · exact lt_of_lt_of_le hlt2 ((List.sorted_cons.mp hsort).1 x hxr)
      · refine findKeyframeAux_none_of_ge t times ?_ 0
        intro x hx
        exact le_trans (sorted_le_getD_last times hsort x (List.mem_of_mem_tail hx)) hge
    have hkf : findKeyframe times t = 0 := by
      unfold findKeyframe
      rw [hnone]
      rfl
    refine ⟨hkf, ?_⟩
    unfold interpFactor
    rw [hkf, if_pos (by omega)]
  · intro values current h
    unfold sampleVec3Track
    rw [if_pos h]

/-- Witness for the amended C2 statement at the sorted two-keyframe track
0, 1 with query time one half. -/
theorem sampleAnimation_keyframe_selection_witness :
    List.Sorted (· ≤ ·) ([0, 1] : List ℚ) ∧
    2 ≤ ([0, 1] : List ℚ).length ∧
    ((∀ i, i + 1 < ([0, 1] : List ℚ).length →
        ([0, 1] : List ℚ).getD i 0 ≤ (1 / 2 : ℚ) →
        (1 / 2 : ℚ) < ([0, 1] : List ℚ).getD (i + 1) 0 →
        findKeyframe [0, 1] (1 / 2) = i ∧
        interpFactor [0, 1] (1 / 2) =
          ((1 / 2 : ℚ) - ([0, 1] : List ℚ).getD i 0) /
            (([0, 1] : List ℚ).getD (i + 1) 0 - ([0, 1] : List ℚ).getD i 0)) ∧
      (((1 / 2 : ℚ) < ([0, 1] : List ℚ).getD 0 0 ∨
          ([0, 1] : List ℚ).getD (([0, 1] : List ℚ).length - 1) 0 ≤ (1 / 2 : ℚ)) →
        findKeyframe [0, 1] (1 / 2) = 0 ∧
        interpFactor [0, 1] (1 / 2) =
          (if 0 < ([0, 1] : List ℚ).getD 1 0 - ([0, 1] : List ℚ).getD 0 0 then
            ((1 / 2 : ℚ) - ([0, 1] : List ℚ).getD 0 0) /
              (([0, 1] : List ℚ).getD 1 0 - ([0, 1] : List ℚ).getD 0 0)
          else 0)) ∧
      (∀ (values : List (ℚ × ℚ × ℚ)) (current : ℚ × ℚ × ℚ),
        findKeyframe [0, 1] (1 / 2) < values.length - 1 →
        sampleVec3Track [0, 1] values (1 / 2) current =
          lerpV3 (values.getD (findKeyframe [0, 1] (1 / 2)) (0, 0, 0))
            (values.getD (findKeyframe [0, 1] (1 / 2) + 1) (0, 0, 0))
            (interpFactor [0, 1] (1 / 2)))) :=
  ⟨by simp [List.sorted_cons], by simp,
    sampleAnimation_keyframe_selection [0, 1] (1 / 2)
      (by simp [List.sorted_cons]) (by simp)⟩

/-- Witness for C10 at a one-animation model without skinning, animation
index 5 and bone index 3. -/
theorem query_surface_total_witness :
    ((5 : ℤ) < 0 ∨ (oneAnimModel.animations.length : ℤ) ≤ 5) ∧
    (getAnimationName oneAnimModel 5 = "" ∧
      getAnimationDuration oneAnimModel 5 = 0 ∧
      (setCurrentAnimation oneAnimModel 5 0).currentAnimationIndex = -1 ∧
      ((oneAnimModel.hasSkinning = false ∨ (3 : ℤ) < 0 ∨
          (((oneAnimModel.skins.getD 0 default).jointIndices.length : ℤ) ≤ 3)) →
        getBoneTransform oneAnimModel 3 default = (false, default))) :=
  ⟨Or.inr (by decide),
    query_surface_total_on_out_of_range oneAnimModel 5 3 default 0 (Or.inr (by decide))⟩

end GLTF
